import Mathlib

/-!
Shallow embedding of fooocusapi/utils/file_utils.py.

The module manages generated image files: saving a pixel buffer with
optional PNG text-chunk metadata under a date bucket, deleting files,
re-encoding stored files to PNG bytes or base64 text, uploading files to a
remote storage bucket, and composing a static serving URL.

Modelling conventions:
- Paths are Lean strings.  os.path.join is modelled with an explicit host
  separator character `sep` (the value of os.sep, a slash on POSIX and a
  backslash on Windows); Path(...).as_posix() is modelled as mapping the
  host separator to a forward slash.
- The filesystem is an association list from full path to file data; a
  stored entry is a regular file, directories are implicit (os.makedirs is
  a no-op in this model).
- The PIL codec is modelled at the container level: a saved file records
  its encoded format, its pixel buffer, and its PNG text chunks.  The PNG
  byte encoder used by the re-encoding readers is modelled as an injective
  function from pixel buffers to byte lists.
- json.dumps on a string-valued mapping is modelled by the ChunkVal.jsonVal
  constructor and json.loads by its projection; the defining library
  contract loads (dumps m) = m holds by construction.
- base64.b64encode followed by decode utf-8 is implemented concretely over
  byte lists with the standard alphabet and padding.
- The supabase storage client is modelled by a log of issued calls and by a
  public-URL composition function; environment configuration values are
  fixed string constants.
- datetime.now().strftime of the date pattern is modelled by passing the
  resulting date string as an explicit argument.
-/

namespace FileUtils

/-- Encoded container format of a stored image file. -/
inductive ImgFormat
  | png
  | jpeg
  | webp
deriving DecidableEq, Repr

/-- Value held by a PNG text chunk: either a plain string, or the
json.dumps serialization of a string-valued mapping (see module header). -/
inductive ChunkVal
  | strVal (s : String)
  | jsonVal (m : List (String × String))
deriving DecidableEq, Repr

/-- Models json.loads applied to a text-chunk value, restricted to mappings
from strings to strings: inverts ChunkVal.jsonVal, fails on a plain string. -/
def json_loads_meta : ChunkVal → Option (List (String × String))
  | ChunkVal.jsonVal m => some m
  | ChunkVal.strVal _ => none

/-- A stored image file: its container format, its pixel buffer (the numpy
array flattened to a byte list), and its PNG text chunks (empty unless the
format is PNG and metadata was embedded). -/
structure FileData where
  format : ImgFormat
  pixels : List Nat
  chunks : List (String × ChunkVal)
deriving DecidableEq, Repr

/-- The local filesystem under the output directory: full path to file data. -/
abbrev FS := List (String × FileData)

/-- First-match lookup in an association list keyed by strings; models both
Python dict subscripting and resolving a path in the filesystem. -/
def lookupStr {β : Type} : List (String × β) → String → Option β
  | [], _ => none
  | (k, v) :: rest, key => if k = key then some v else lookupStr rest key

/-- Writing a file: later entries shadow earlier ones, so a second save to
the same path overwrites silently. -/
def fsInsert (fs : FS) (p : String) (d : FileData) : FS :=
  (p, d) :: fs

/-- Removing a file from the filesystem. -/
def fsRemove (fs : FS) (p : String) : FS :=
  fs.filter (fun kv => kv.1 ≠ p)

/-- Models os.path.exists combined with os.path.isfile: in this model every
stored entry is a regular file. -/
def is_file (fs : FS) (p : String) : Bool :=
  (lookupStr fs p).isSome

/-- Python exception kinds raised by the embedded code. -/
inductive PyErr
  | keyError
deriving DecidableEq, Repr

/-- Models os.remove: removes the file, or raises OSError when the path
does not resolve to a file. -/
def os_remove (p : String) (fs : FS) : Except Unit FS :=
  if is_file fs p then Except.ok (fsRemove fs p) else Except.error ()

/-- Models os.path.join of two path fragments under host separator sep. -/
def os_path_join (sep : Char) (a b : String) : String :=
  a ++ String.singleton sep ++ b

/-- One character of the as_posix normalization: the host separator becomes
a forward slash, every other character is unchanged. -/
def normalizeChar (sep : Char) (c : Char) : Char :=
  if c = sep then '/' else c

/-- Models Path(s).as_posix() under host separator sep. -/
def path_as_posix (sep : Char) (s : String) : String :=
  String.mk (s.data.map (normalizeChar sep))

/-- The process-wide base output directory, fixed at startup; its concrete
value is irrelevant to the claims. -/
def output_dir : String := "/app/outputs/files"

/-- Base URL of the local static file server. -/
def STATIC_SERVER_BASE : String := "http://127.0.0.1:8888/files/"

/-- Environment-configured remote bucket name. -/
def SUPABASE_BUCKET_NAME : String := "fooocus-bucket"

/-- Environment-configured remote storage endpoint. -/
def SUPABASE_URL : String := "https://supabase.example"

/-- Models the storage client method get_public_url: composes the public
URL of an object from the bucket name and the object key. -/
def get_public_url (bucket path : String) : String :=
  SUPABASE_URL ++ "/storage/v1/object/public/" ++ bucket ++ "/" ++ path

/-- One call issued to the remote storage client upload method. -/
structure StorageCall where
  bucket : String
  path : String
  filePath : String
  contentType : String
deriving DecidableEq, Repr

/-- Maps the already-coerced extension string to the container format
passed to Image.save. -/
def formatOfExt (e : String) : ImgFormat :=
  if e = "jpeg" then ImgFormat.jpeg
  else if e = "webp" then ImgFormat.webp
  else ImgFormat.png

/-- Embeds the PngInfo building block of save_output_file (lines 59 to
66): when the coerced extension is png and the mapping is non-empty, the
text chunks are built from the json.dumps of the full mapping and from the
metadata_scheme entry, whose subscript raises KeyError when the key is
absent; otherwise no chunks are attached. -/
def build_png_info (ext2 : String) (meta2 : List (String × String)) :
    Except PyErr (List (String × ChunkVal)) :=
  if ext2 = "png" ∧ meta2 ≠ [] then
    match lookupStr meta2 "metadata_scheme" with
    | some scheme =>
        Except.ok [("parameters", ChunkVal.jsonVal meta2),
                   ("fooocus_scheme", ChunkVal.strVal scheme)]
    | none => Except.error PyErr.keyError
  else Except.ok []

/-- Embeds save_output_file (file_utils.py lines 34 to 74).  Follows the
source order: the relative filename is composed from the date bucket and
the caller extension BEFORE the extension is coerced into the set png,
jpeg, webp; a None metadata mapping becomes empty; then the PngInfo text
chunks are built (KeyError escapes before any directory creation or file
write, so the filesystem is returned unchanged); finally the image is
encoded in the coerced format and written.  Returns the pair of the Python
result (the as_posix relative path, or the escaping exception) and the
filesystem after the call. -/
def save_output_file (sep : Char) (date_string : String) (img : List Nat)
    (image_meta : Option (List (String × String))) (image_name : String)
    (extension : String) (fs : FS) : Except PyErr String × FS :=
  let filename := os_path_join sep date_string (image_name ++ "." ++ extension)
  let file_path := os_path_join sep output_dir filename
  let ext2 := if extension = "png" ∨ extension = "jpeg" ∨ extension = "webp" then extension else "png"
  let meta2 := image_meta.getD []
  match build_png_info ext2 meta2 with
  | Except.error e => (Except.error e, fs)
  | Except.ok chunks =>
      let fmt := formatOfExt ext2
      let chunks2 := if fmt = ImgFormat.png then chunks else []
      (Except.ok (path_as_posix sep filename),
       fsInsert fs file_path (FileData.mk fmt img chunks2))

/-- Severity of a logger call. -/
inductive LogLevel
  | info
  | warn
  | error
deriving DecidableEq, Repr

/-- One logger call: severity and message. -/
structure LogEvent where
  level : LogLevel
  msg : String
deriving DecidableEq, Repr

/-- Embeds delete_output_file (lines 77 to 90): warn when the path does not
resolve to a regular file, then try os.remove, logging success at info
level and catching OSError into an error log.  Total by construction: the
only fallible primitive is wrapped in the try block, so no exception
escapes.  Returns the filesystem after the call and the logger calls. -/
def delete_output_file (sep : Char) (filename : String) (fs : FS) :
    FS × List LogEvent :=
  let file_path := os_path_join sep output_dir filename
  let warnLog : List LogEvent :=
    if is_file fs file_path then []
    else [LogEvent.mk LogLevel.warn ("[Fooocus API] " ++ filename ++ " not exists or is not a file")]
  match os_remove file_path fs with
  | Except.ok fs2 =>
      (fs2, warnLog ++ [LogEvent.mk LogLevel.info ("[Fooocus API] Delete output file: " ++ filename)])
  | Except.error _ =>
      (fs, warnLog ++ [LogEvent.mk LogLevel.error ("[Fooocus API] Delete output file failed: " ++ filename)])

/-- Models the PIL PNG byte encoder used by img.save into an in-memory
buffer with format PNG: an injective map from pixel buffers to byte lists,
prefixed by the PNG signature bytes.  Re-encoding drops text chunks. -/
def png_encode (pixels : List Nat) : List Nat :=
  137 :: 80 :: 78 :: 71 :: pixels

/-- Embeds output_file_to_bytesimg (lines 114 to 131): absent input or a
path that does not resolve to a regular file yields none; otherwise the
stored image is re-encoded as PNG into an in-memory buffer and the raw
bytes are returned. -/
def output_file_to_bytesimg (sep : Char) (filename : Option String) (fs : FS) :
    Option (List Nat) :=
  match filename with
  | none => none
  | some f =>
      let file_path := os_path_join sep output_dir f
      match lookupStr fs file_path with
      | none => none
      | some fd => some (png_encode fd.pixels)

/-- Character of the standard base64 alphabet at a given index. -/
def b64Char (n : Nat) : Char :=
  "ABCDEFGHIJKLMNOPQRSTUVWXYZabcdefghijklmnopqrstuvwxyz0123456789+/".data.getD n '='

/-- Standard base64 of a byte list, with padding, as a character list. -/
def b64encodeList : List Nat → List Char
  | [] => []
  | [a] => [b64Char (a / 4 % 64), b64Char (a % 4 * 16), '=', '=']
  | [a, b] => [b64Char (a / 4 % 64), b64Char (a % 4 * 16 + b / 16),
               b64Char (b % 16 * 4), '=']
  | a :: b :: c :: rest =>
      b64Char (a / 4 % 64) :: b64Char (a % 4 * 16 + b / 16) ::
      b64Char (b % 16 * 4 + c / 64) :: b64Char (c % 64) :: b64encodeList rest

/-- Models base64.b64encode followed by decode utf-8: the base64 text of a
byte list as a string. -/
def b64encodeStr (bs : List Nat) : String :=
  String.mk (b64encodeList bs)

/-- Embeds output_file_to_base64img (lines 93 to 111): same resolution and
absent handling as the bytes reader, then the PNG re-encoding is base64
encoded and returned as text. -/
def output_file_to_base64img (sep : Char) (filename : Option String) (fs : FS) :
    Option String :=
  match filename with
  | none => none
  | some f =>
      let file_path := os_path_join sep output_dir f
      match lookupStr fs file_path with
      | none => none
      | some fd => some (b64encodeStr (png_encode fd.pixels))

/-- Embeds upload_to_storage (lines 133 to 154): absent when any of the
three inputs is missing or when the path does not resolve to a regular
file, in each case issuing no storage call; otherwise uploads the file to
the configured bucket under the key user over transaction over relative
path, declaring content type image/jpeg, and returns the public URL of the
key.  The second result lists the calls issued to the storage client. -/
def upload_to_storage (sep : Char) (filename transaction_id user_id : Option String)
    (fs : FS) : Option String × List StorageCall :=
  match filename with
  | none => (none, [])
  | some fname =>
      match transaction_id with
      | none => (none, [])
      | some tid =>
          match user_id with
          | none => (none, [])
          | some uid =>
              let file_path := os_path_join sep output_dir fname
              if is_file fs file_path then
                let bucket_path := uid ++ "/" ++ tid ++ "/" ++ fname
                (some (get_public_url SUPABASE_BUCKET_NAME bucket_path),
                 [StorageCall.mk SUPABASE_BUCKET_NAME bucket_path file_path "image/jpeg"])
              else (none, [])

/-- Replaces every backslash by a forward slash; models the str.replace
call in get_file_serve_url, which replaces each single-character match. -/
def backslashToSlash (s : String) : String :=
  String.mk (s.data.map (fun c => if c = '\\' then '/' else c))

/-- Embeds get_file_serve_url (lines 156 to 165): pure string composition,
no filesystem or network access (it takes no filesystem argument and
issues no call). -/
def get_file_serve_url (filename : Option String) : Option String :=
  match filename with
  | none => none
  | some f => some (STATIC_SERVER_BASE ++ backslashToSlash f)

/-! Helper lemmas shared by the claim theorems. -/

/-- The character list of a singleton string. -/
theorem data_singleton (c : Char) : (String.singleton c).data = [c] := rfl

/-- Normalization maps the host separator itself to a forward slash. -/
theorem normalizeChar_sep (sep : Char) : normalizeChar sep sep = '/' := by
  simp [normalizeChar]

/-- Normalization leaves a character other than the host separator
unchanged; under a POSIX or Windows separator it suffices that the
character is not a backslash. -/
theorem normalizeChar_eq_self (sep c : Char) (hsep : sep = '/' ∨ sep = '\\')
    (hc : c ≠ '\\') : normalizeChar sep c = c := by
  rcases hsep with rfl | rfl
  · by_cases h : c = '/'
    · rw [normalizeChar, if_pos h, h]
    · rw [normalizeChar, if_neg h]
  · rw [normalizeChar, if_neg hc]

/-- Mapping normalization over a backslash-free character list is the
identity. -/
theorem map_normalizeChar_eq_self (sep : Char) (hsep : sep = '/' ∨ sep = '\\')
    (l : List Char) (hl : '\\' ∉ l) : l.map (normalizeChar sep) = l := by
  calc l.map (normalizeChar sep)
      = l.map id :=
        List.map_congr_left (fun c hc =>
          normalizeChar_eq_self sep c hsep (fun hb => hl (hb ▸ hc)))
    _ = l := List.map_id l

/-- as_posix applied to a host join of backslash-free fragments is the
forward-slash join of the fragments. -/
theorem as_posix_join_eq (sep : Char) (hsep : sep = '/' ∨ sep = '\\')
    (a b : String) (ha : '\\' ∉ a.data) (hb : '\\' ∉ b.data) :
    path_as_posix sep (os_path_join sep a b) = a ++ "/" ++ b := by
  apply String.ext
  have h1 : (os_path_join sep a b).data = a.data ++ [sep] ++ b.data := by
    simp [os_path_join, String.data_append, data_singleton]
  have h2 : (a ++ "/" ++ b).data = a.data ++ ['/'] ++ b.data := by
    simp [String.data_append, show ("/" : String).data = ['/'] from rfl]
  rw [show (path_as_posix sep (os_path_join sep a b)).data
        = (os_path_join sep a b).data.map (normalizeChar sep) from rfl, h1, h2,
      List.map_append, List.map_append,
      map_normalizeChar_eq_self sep hsep a.data ha,
      map_normalizeChar_eq_self sep hsep b.data hb]
  simp [normalizeChar_sep]

/-- C1: the claim states that for an extension outside png, jpeg, webp the
returned relative path names a png file and the file on disk is a png
file.  The source composes the filename from the caller extension BEFORE
coercing the extension, so saving with extension gif returns the relative
path 2024-03-22/t.gif, writes the PNG-encoded pixels under the gif name,
and writes nothing under the png name: the coercion reaches the encoded
format but not the file name, contradicting the claim. -/
theorem save_gif_path_keeps_gif_extension :
    (save_output_file '/' "2024-03-22" [0] none "t" "gif" []).1 =
      Except.ok "2024-03-22/t.gif" ∧
    lookupStr (save_output_file '/' "2024-03-22" [0] none "t" "gif" []).2
      "/app/outputs/files/2024-03-22/t.gif" =
      some (FileData.mk ImgFormat.png [0] []) ∧
    lookupStr (save_output_file '/' "2024-03-22" [0] none "t" "gif" []).2
      "/app/outputs/files/2024-03-22/t.png" = none :=
  ⟨rfl, rfl, rfl⟩

/-- C3: upload returns absent and issues no storage call when any of
filename, transaction id, user id is missing, and likewise when all three
are present but the resolved path is not an existing regular file. -/
theorem upload_absent_without_calls (sep : Char) (f t u : Option String) (fs : FS) :
    ((f = none ∨ t = none ∨ u = none) →
      upload_to_storage sep f t u fs = (none, [])) ∧
    (∀ fn tn un, f = some fn → t = some tn → u = some un →
      is_file fs (os_path_join sep output_dir fn) = false →
      upload_to_storage sep f t u fs = (none, [])) := by
  constructor
  · rintro (rfl | rfl | rfl)
    · rfl
    · cases f <;> rfl
    · cases f <;> try rfl
      cases t <;> rfl
  · rintro fn tn un rfl rfl rfl h
    simp [upload_to_storage, h]

/-- Witness for C3 at concrete inputs: a missing filename, and a filename
that resolves to no file on an empty filesystem. -/
theorem upload_absent_without_calls_spot :
    upload_to_storage '/' none (some "t") (some "u") ([] : FS) = (none, []) ∧
    upload_to_storage '/' (some "a.png") (some "t") (some "u") ([] : FS) = (none, []) :=
  ⟨(upload_absent_without_calls '/' none (some "t") (some "u") []).1 (Or.inl rfl),
   (upload_absent_without_calls '/' (some "a.png") (some "t") (some "u") []).2
     "a.png" "t" "u" rfl rfl rfl rfl⟩

/-- C4: delete is a total function of the filename and filesystem (the one
fallible primitive, os.remove, sits inside the try block, so no exception
escapes); a target that is not an existing regular file leaves the
filesystem unchanged and is reported by a warning log, and the failing
removal is caught into an error log; an existing target is removed and
reported at info level. -/
theorem delete_total_and_quiet (sep : Char) (filename : String) (fs : FS) :
    (is_file fs (os_path_join sep output_dir filename) = false →
      (delete_output_file sep filename fs).1 = fs ∧
      LogLevel.warn ∈ (delete_output_file sep filename fs).2.map LogEvent.level ∧
      LogLevel.error ∈ (delete_output_file sep filename fs).2.map LogEvent.level) ∧
    (is_file fs (os_path_join sep output_dir filename) = true →
      (delete_output_file sep filename fs).1 =
        fsRemove fs (os_path_join sep output_dir filename) ∧
      LogLevel.info ∈ (delete_output_file sep filename fs).2.map LogEvent.level) := by
  constructor
  · intro h
    simp [delete_output_file, os_remove, h]
  · intro h
    simp [delete_output_file, os_remove, h]

/-- Witness for C4: deleting a path that was never saved returns normally,
keeps the filesystem unchanged, and logs a warning and an error. -/
theorem delete_total_and_quiet_spot :
    (delete_output_file '/' "ghost.png" []).1 = [] ∧
    LogLevel.warn ∈ (delete_output_file '/' "ghost.png" []).2.map LogEvent.level ∧
    LogLevel.error ∈ (delete_output_file '/' "ghost.png" []).2.map LogEvent.level :=
  (delete_total_and_quiet '/' "ghost.png" []).1 rfl

/-- C5: the base64 and bytes readers both return absent on an absent input
and both return absent, rather than raising, when the resolved path is not
an existing regular file. -/
theorem readers_absent_on_missing (sep : Char) (fs : FS) (f : String)
    (h : is_file fs (os_path_join sep output_dir f) = false) :
    output_file_to_base64img sep none fs = none ∧
    output_file_to_bytesimg sep none fs = none ∧
    output_file_to_base64img sep (some f) fs = none ∧
    output_file_to_bytesimg sep (some f) fs = none := by
  have hl : lookupStr fs (os_path_join sep output_dir f) = none := by
    cases hx : lookupStr fs (os_path_join sep output_dir f) with
    | none => rfl
    | some fd => rw [is_file, hx] at h; simp at h
  exact ⟨rfl, rfl, by simp [output_file_to_base64img, hl],
         by simp [output_file_to_bytesimg, hl]⟩

/-- Witness for C5 on an empty filesystem and a never-saved path. -/
theorem readers_absent_on_missing_spot :
    output_file_to_base64img '/' none ([] : FS) = none ∧
    output_file_to_bytesimg '/' none ([] : FS) = none ∧
    output_file_to_base64img '/' (some "nope.png") ([] : FS) = none ∧
    output_file_to_bytesimg '/' (some "nope.png") ([] : FS) = none :=
  readers_absent_on_missing '/' [] "nope.png" rfl

/-- C6: the serving URL is pure string composition (the embedded function
takes no filesystem argument and issues no call): absent input yields
absent, a present input yields the fixed static base concatenated with the
input with every backslash replaced by a forward slash, the produced
suffix contains no backslash, and the concrete example with one backslash
normalizes as the claim states. -/
theorem serve_url_pure_composition (s : String) :
    get_file_serve_url none = none ∧
    get_file_serve_url (some s) = some (STATIC_SERVER_BASE ++ backslashToSlash s) ∧
    '\\' ∉ (backslashToSlash s).data ∧
    get_file_serve_url (some "a\\b.png") =
      some "http://127.0.0.1:8888/files/a/b.png" := by
  refine ⟨rfl, rfl, ?_, by decide⟩
  intro hmem
  rcases List.mem_map.mp hmem with ⟨a, _, ha⟩
  by_cases hab : a = '\\'
  · rw [if_pos hab] at ha
    exact absurd ha (by decide)
  · rw [if_neg hab] at ha
    exact hab ha

/-- Witness for C6 at a concrete string containing a backslash. -/
theorem serve_url_pure_composition_spot :
    get_file_serve_url (some "x\\y") =
      some (STATIC_SERVER_BASE ++ backslashToSlash "x\\y") :=
  (serve_url_pure_composition "x\\y").2.1

/-- C7: when all three inputs are present and the resolved file exists,
upload issues exactly one storage call, to the configured bucket under the
key composed as user id, transaction id, relative path joined by slashes,
with content type always declared image/jpeg, and returns the public URL
derived for that key. -/
theorem upload_uploads_under_composed_key (sep : Char) (fn tn un : String)
    (fs : FS) (h : is_file fs (os_path_join sep output_dir fn) = true) :
    upload_to_storage sep (some fn) (some tn) (some un) fs =
      (some (get_public_url SUPABASE_BUCKET_NAME (un ++ "/" ++ tn ++ "/" ++ fn)),
       [StorageCall.mk SUPABASE_BUCKET_NAME (un ++ "/" ++ tn ++ "/" ++ fn)
         (os_path_join sep output_dir fn) "image/jpeg"]) := by
  simp [upload_to_storage, h]

/-- Witness for C7 on a filesystem holding the target file. -/
theorem upload_uploads_under_composed_key_spot :
    upload_to_storage '/' (some "a.png") (some "tid") (some "uid")
        [("/app/outputs/files/a.png", FileData.mk ImgFormat.png [0] [])] =
      (some (get_public_url SUPABASE_BUCKET_NAME ("uid" ++ "/" ++ "tid" ++ "/" ++ "a.png")),
       [StorageCall.mk SUPABASE_BUCKET_NAME ("uid" ++ "/" ++ "tid" ++ "/" ++ "a.png")
         (os_path_join '/' output_dir "a.png") "image/jpeg"]) :=
  upload_uploads_under_composed_key '/' "a.png" "tid" "uid"
    [("/app/outputs/files/a.png", FileData.mk ImgFormat.png [0] [])] rfl

/-- C9: the base64 reader and the bytes reader agree: they are absent on
exactly the same inputs, and on a present input the base64 result is the
base64 text of the bytes result, both being the PNG re-encoding of the
pixels of the same stored file. -/
theorem base64_and_bytes_agree (sep : Char) (f : Option String) (fs : FS) :
    (output_file_to_base64img sep f fs = none ↔
      output_file_to_bytesimg sep f fs = none) ∧
    (∀ bs, output_file_to_bytesimg sep f fs = some bs →
      output_file_to_base64img sep f fs = some (b64encodeStr bs) ∧
      ∃ fn fd, f = some fn ∧
        lookupStr fs (os_path_join sep output_dir fn) = some fd ∧
        bs = png_encode fd.pixels) := by
  cases f with
  | none =>
      exact ⟨by simp [output_file_to_base64img, output_file_to_bytesimg],
             fun bs h => by simp [output_file_to_bytesimg] at h⟩
  | some fn =>
      cases hl : lookupStr fs (os_path_join sep output_dir fn) with
      | none =>
          exact ⟨by simp [output_file_to_base64img, output_file_to_bytesimg, hl],
                 fun bs h => by simp [output_file_to_bytesimg, hl] at h⟩
      | some fd =>
          constructor
          · simp [output_file_to_base64img, output_file_to_bytesimg, hl]
          · intro bs h
            have hbs : bs = png_encode fd.pixels := by
              simp [output_file_to_bytesimg, hl] at h
              exact h.symm
            exact ⟨by simp [output_file_to_base64img, hl, hbs],
                   fn, fd, rfl, hl, hbs⟩

/-- Witness for C9 on a filesystem holding one two-pixel file. -/
theorem base64_and_bytes_agree_spot :
    output_file_to_base64img '/' (some "d/x.png")
        [("/app/outputs/files/d/x.png", FileData.mk ImgFormat.png [1, 2] [])] =
      some (b64encodeStr (png_encode [1, 2])) :=
  ((base64_and_bytes_agree '/' (some "d/x.png")
      [("/app/outputs/files/d/x.png", FileData.mk ImgFormat.png [1, 2] [])]).2
    (png_encode [1, 2]) rfl).1

/-- C2: saving with PNG extension and a non-empty metadata mapping holding
the metadata_scheme key succeeds, and the saved file carries a parameters
text chunk whose JSON decoding is the original mapping and a
fooocus_scheme text chunk holding the metadata_scheme value. -/
theorem save_png_metadata_roundtrip (sep : Char) (date : String) (img : List Nat)
    (meta : List (String × String)) (image_name v : String) (fs : FS)
    (hne : meta ≠ []) (hv : lookupStr meta "metadata_scheme" = some v) :
    (save_output_file sep date img (some meta) image_name "png" fs).1 =
      Except.ok (path_as_posix sep (os_path_join sep date (image_name ++ "." ++ "png"))) ∧
    ∃ fd, lookupStr (save_output_file sep date img (some meta) image_name "png" fs).2
        (os_path_join sep output_dir (os_path_join sep date (image_name ++ "." ++ "png"))) =
        some fd ∧
      (lookupStr fd.chunks "parameters").bind json_loads_meta = some meta ∧
      lookupStr fd.chunks "fooocus_scheme" = some (ChunkVal.strVal v) := by
  have hb : build_png_info "png" meta =
      Except.ok [("parameters", ChunkVal.jsonVal meta),
                 ("fooocus_scheme", ChunkVal.strVal v)] := by
    simp [build_png_info, hne, hv]
  refine ⟨?_, FileData.mk ImgFormat.png img
      [("parameters", ChunkVal.jsonVal meta), ("fooocus_scheme", ChunkVal.strVal v)],
      ?_, ?_, ?_⟩
  · simp [save_output_file, hb]
  · simp [save_output_file, hb, formatOfExt, fsInsert, lookupStr]
  · simp [lookupStr, json_loads_meta]
  · simp [lookupStr]

/-- Witness for C2 with a two-entry mapping. -/
theorem save_png_metadata_roundtrip_spot :
    (save_output_file '/' "2024-03-22" [7]
        (some [("metadata_scheme", "fooocus"), ("prompt", "x")]) "t1" "png" []).1 =
      Except.ok (path_as_posix '/' (os_path_join '/' "2024-03-22" ("t1" ++ "." ++ "png"))) :=
  (save_png_metadata_roundtrip '/' "2024-03-22" [7]
    [("metadata_scheme", "fooocus"), ("prompt", "x")] "t1" "fooocus" []
    (by simp) rfl).1

/-- C8: a successful save returns the date bucket, a forward slash, and
the name dot extension, with no backslash in the result, whether the host
separator is the POSIX slash or the Windows backslash, provided the date,
name, and extension themselves contain no backslash. -/
theorem save_relpath_forward_slashes (sep : Char) (date : String) (img : List Nat)
    (image_meta : Option (List (String × String))) (image_name extension : String)
    (fs : FS) (hsep : sep = '/' ∨ sep = '\\')
    (hd : '\\' ∉ date.data) (hn : '\\' ∉ image_name.data)
    (he : '\\' ∉ extension.data) :
    ∀ r fs2, save_output_file sep date img image_meta image_name extension fs =
        (Except.ok r, fs2) →
      r = date ++ "/" ++ (image_name ++ "." ++ extension) ∧ '\\' ∉ r.data := by
  intro r fs2 h
  have hr : r = path_as_posix sep (os_path_join sep date (image_name ++ "." ++ extension)) := by
    simp only [save_output_file] at h
    split at h
    · exact absurd h (by simp)
    · exact (Except.ok.inj (congrArg Prod.fst h)).symm
  have hmem : '\\' ∉ (image_name ++ "." ++ extension).data := by
    intro hx
    rw [String.data_append, String.data_append] at hx
    rcases List.mem_append.mp hx with hx1 | hx2
    · rcases List.mem_append.mp hx1 with hy1 | hy2
      · exact hn hy1
      · exact absurd hy2 (by decide)
    · exact he hx2
  have hre : r = date ++ "/" ++ (image_name ++ "." ++ extension) :=
    hr.trans (as_posix_join_eq sep hsep date (image_name ++ "." ++ extension) hd hmem)
  refine ⟨hre, ?_⟩
  rw [hre]
  intro hx
  rw [String.data_append, String.data_append] at hx
  rcases List.mem_append.mp hx with hx1 | hx2
  · rcases List.mem_append.mp hx1 with hy1 | hy2
    · exact hd hy1
    · exact absurd hy2 (by decide)
  · exact hmem hx2

/-- Witness for C8 under the Windows separator: the backslash-joined
relative path comes back forward-slash-normalized. -/
theorem save_relpath_forward_slashes_spot :
    "2024-03-22/t1.png" = "2024-03-22" ++ "/" ++ ("t1" ++ "." ++ "png") :=
  (save_relpath_forward_slashes '\\' "2024-03-22" [0] none "t1" "png" []
    (Or.inr rfl) (by decide) (by decide) (by decide)
    "2024-03-22/t1.png"
    [("/app/outputs/files\\2024-03-22\\t1.png", FileData.mk ImgFormat.png [0] [])]
    rfl).1

/-- When every non-empty mapping carries the metadata_scheme key, the
PngInfo building block cannot raise. -/
theorem build_png_info_ok (ext2 : String) (meta2 : List (String × String))
    (hsome : meta2 ≠ [] → (lookupStr meta2 "metadata_scheme").isSome = true) :
    ∃ chunks, build_png_info ext2 meta2 = Except.ok chunks := by
  unfold build_png_info
  by_cases hc : ext2 = "png" ∧ meta2 ≠ []
  · rw [if_pos hc]
    rcases Option.isSome_iff_exists.mp (hsome hc.2) with ⟨v, hv⟩
    rw [hv]
    exact ⟨_, rfl⟩
  · rw [if_neg hc]
    exact ⟨[], rfl⟩

/-- C10: when the coerced extension is png and the mapping is non-empty
but lacks the metadata_scheme key, save raises KeyError and the filesystem
comes back unchanged, nothing having been written; and under the
precondition that every non-empty mapping carries the key, save always
returns a path, so the error branch is unreachable. -/
theorem save_missing_scheme_raises_keyerror (sep : Char) (date : String)
    (img : List Nat) (meta : List (String × String)) (image_name extension : String)
    (fs : FS) :
    (((if extension = "png" ∨ extension = "jpeg" ∨ extension = "webp" then extension else "png") = "png") →
      meta ≠ [] → lookupStr meta "metadata_scheme" = none →
      save_output_file sep date img (some meta) image_name extension fs =
        (Except.error PyErr.keyError, fs)) ∧
    ((meta ≠ [] → (lookupStr meta "metadata_scheme").isSome = true) →
      ∃ r fs2, save_output_file sep date img (some meta) image_name extension fs =
        (Except.ok r, fs2)) := by
  constructor
  · intro hext hne hnone
    have hb : build_png_info
        (if extension = "png" ∨ extension = "jpeg" ∨ extension = "webp" then extension else "png")
        meta = Except.error PyErr.keyError := by
      rw [hext]
      simp [build_png_info, hne, hnone]
    simp [save_output_file, hb]
  · intro hsome
    obtain ⟨chunks, hbi⟩ := build_png_info_ok
      (if extension = "png" ∨ extension = "jpeg" ∨ extension = "webp" then extension else "png")
      meta hsome
    simp [save_output_file, hbi]

/-- Witness for C10: the KeyError branch at a mapping without the key, and
the success branch at a mapping with the key. -/
theorem save_missing_scheme_raises_keyerror_spot :
    save_output_file '/' "2024-03-22" [0] (some [("a", "b")]) "t" "png" [] =
      (Except.error PyErr.keyError, []) :=
  (save_missing_scheme_raises_keyerror '/' "2024-03-22" [0] [("a", "b")] "t" "png" []).1
    (by decide) (by simp) rfl

end FileUtils
